import Mathlib

/-!
# Billing & Settlement Engine — verification of the CRMB specification

Shallow embedding of the billing core of the CRMB supermarket CRM
(`backend/src/models/Bill.js`, `backend/src/models/Customer.js`,
`backend/src/routes/bills.js`).  Monetary values are modelled as exact
rationals (`ℚ`); the JavaScript source uses IEEE doubles, whose rounding
is orthogonal to every arithmetic identity checked here.  Enumerated
string fields become inductive types; the Mongoose string value
`"partial"` is rendered `partPaid` and `"partial_refund"` is rendered
`partRefund`.  Mongoose documents become Lean structures, and each route
handler or schema hook becomes an explicit function; the effectful
product/customer collection updates are passed through as explicit
state.
-/

namespace CRMB

/-- `Bill.paymentStatus` enum (`Bill.js` lines 150–154).
`partPaid` renders the source string `"partial"`. -/
inductive PaymentStatus where
  | pending
  | paid
  | partPaid
  | failed
  | refunded
  deriving DecidableEq, Repr

/-- `Bill.status` enum (`Bill.js` lines 172–176).
`partRefund` renders the source string `"partial_refund"`. -/
inductive BillStatus where
  | draft
  | completed
  | cancelled
  | refunded
  | partRefund
  deriving DecidableEq, Repr

/-- `Customer.customerType` enum (`Customer.js` lines 60–64). -/
inductive CustomerType where
  | new
  | regular
  | loyal
  | vip
  deriving DecidableEq, Repr

/-- One line item of a bill (`Bill.js` lines 25–80). -/
structure BillItem where
  product : Nat
  productName : String
  sku : String
  quantity : Nat
  unit : String
  unitPrice : ℚ
  discountPercentage : ℚ
  discountAmount : ℚ
  taxRate : ℚ
  taxAmount : ℚ
  lineTotal : ℚ
  deriving DecidableEq, Repr

/-- One entry of `Bill.paymentDetails` (`Bill.js` lines 134–149). -/
structure PaymentRecord where
  method : String
  amount : ℚ
  reference : String
  status : String
  deriving DecidableEq, Repr

/-- The Bill document (`Bill.js`).  Fields not touched by the billing
engine (store info, receipt flags, …) are omitted; defaults mirror the
schema defaults. -/
structure Bill where
  customer : Nat
  items : List BillItem
  subtotal : ℚ := 0
  totalDiscount : ℚ := 0
  totalTax : ℚ := 0
  grandTotal : ℚ := 0
  loyaltyPointsUsed : ℚ := 0
  loyaltyPointsEarned : ℚ := 0
  paymentMethod : String := "cash"
  paymentDetails : List PaymentRecord := []
  paymentStatus : PaymentStatus := PaymentStatus.pending
  amountPaid : ℚ := 0
  amountDue : ℚ := 0
  status : BillStatus := BillStatus.draft
  cashier : String := ""
  notes : String := ""
  deliveryCharges : ℚ := 0
  deriving DecidableEq, Repr

/-- The Product document, as read and written by `routes/bills.js`
(`stockQuantity`, `salesCount`, `sellingPrice`, `taxRate`, `isActive`,
plus the snapshot fields `name`/`sku`/`unit`). -/
structure Product where
  id : Nat
  name : String
  sku : String
  unit : String
  sellingPrice : ℚ
  taxRate : ℚ
  stockQuantity : Int
  salesCount : Int
  isActive : Bool
  deriving DecidableEq, Repr

/-- The Customer document fields used by the billing engine
(`Customer.js` lines 60–106). -/
structure Customer where
  id : Nat
  customerType : CustomerType
  loyaltyPoints : ℚ
  totalSpent : ℚ
  totalPurchases : ℚ
  averageOrderValue : ℚ
  deriving DecidableEq, Repr

/-! ## Line-item calculator -/

/-- `item.quantity * item.unitPrice` (the `itemSubtotal` of the
pre-save hook, `Bill.js` line 321). -/
def itemGross (it : BillItem) : ℚ :=
  (it.quantity : ℚ) * it.unitPrice

/-- `itemSubtotal * (item.discountPercentage / 100)` (`Bill.js` line 322). -/
def itemDiscount (it : BillItem) : ℚ :=
  itemGross it * (it.discountPercentage / 100)

/-- `afterDiscount * (item.taxRate / 100)` (`Bill.js` line 324). -/
def itemTax (it : BillItem) : ℚ :=
  (itemGross it - itemDiscount it) * (it.taxRate / 100)

/-- The per-item mutation performed inside the totals pre-save hook
(`Bill.js` lines 321–325): rewrite the derived fields from the base
fields. -/
def recalcItem (it : BillItem) : BillItem :=
  { it with
    discountAmount := itemDiscount it
    taxAmount := itemTax it
    lineTotal := (itemGross it - itemDiscount it) + itemTax it }

/-! ## Bill aggregator (the totals pre-save hook) -/

/-- `Σ quantity * unitPrice` over the items (`Bill.js` lines 320–327). -/
def subtotalOf (items : List BillItem) : ℚ :=
  (items.map itemGross).sum

/-- `Σ discountAmount` (`Bill.js` line 330). -/
def discountOf (items : List BillItem) : ℚ :=
  (items.map fun it => it.discountAmount).sum

/-- `Σ taxAmount` (`Bill.js` line 333). -/
def taxOf (items : List BillItem) : ℚ :=
  (items.map fun it => it.taxAmount).sum

/-- `subtotal - totalDiscount + totalTax + deliveryCharges`
(`Bill.js` line 336). -/
def grandOf (items : List BillItem) (delivery : ℚ) : ℚ :=
  subtotalOf items - discountOf items + taxOf items + delivery

/-- The totals pre-save hook (`Bill.js` lines 318–352).  Mongoose runs
it on every `save()`, i.e. after every mutating operation on a bill. -/
def preSaveTotals (b : Bill) : Bill :=
  let items := b.items.map recalcItem
  let grandTotal := grandOf items b.deliveryCharges
  let b2 := { b with
    items := items
    subtotal := subtotalOf items
    totalDiscount := discountOf items
    totalTax := taxOf items
    grandTotal := grandTotal
    amountDue := grandTotal - b.amountPaid - b.loyaltyPointsUsed }
  if grandTotal ≤ b.amountPaid then
    { b2 with paymentStatus := PaymentStatus.paid, amountDue := 0 }
  else if 0 < b.amountPaid then
    { b2 with paymentStatus := PaymentStatus.partPaid }
  else
    { b2 with paymentStatus := PaymentStatus.pending }

/-- `billSchema.methods.applyPayment` (`Bill.js` lines 367–371):
push the record, add to `amountPaid`, then `save()` (which re-runs
`preSaveTotals`). -/
def applyPayment (b : Bill) (p : PaymentRecord) : Bill :=
  preSaveTotals
    { b with
      paymentDetails := b.paymentDetails ++ [p]
      amountPaid := b.amountPaid + p.amount }

/-- `billSchema.methods.applyLoyaltyPoints` (`Bill.js` lines 374–383):
clamp to at most half the grand total, `save()`, and return the value
stored in `loyaltyPointsUsed`. -/
def applyLoyaltyPoints (b : Bill) (points : ℚ) : Bill × ℚ :=
  let pointValue := points
  let maxApplicable := min pointValue (b.grandTotal * (1/2))
  let b2 := preSaveTotals { b with loyaltyPointsUsed := min points maxApplicable }
  (b2, b2.loyaltyPointsUsed)

/-! ## Customer collaborator methods (`Customer.js`) -/

/-- Loyalty tier multiplier (`Customer.js` lines 258–263): 1.5 for
`loyal`, 2 for `vip`, 1 otherwise. -/
def tierMultiplier : CustomerType → ℚ
  | CustomerType.loyal => 3/2
  | CustomerType.vip => 2
  | _ => 1

/-- `customerSchema.methods.calculateLoyaltyPoints` (`Customer.js`
lines 254–266): `Math.floor(amount / 100)` base points, then
`Math.floor(basePoints * multiplier)`. -/
def calculateLoyaltyPoints (c : Customer) (amount : ℚ) : ℤ :=
  let basePoints : ℤ := ⌊amount / 100⌋
  ⌊(basePoints : ℚ) * tierMultiplier c.customerType⌋

/-- `customerSchema.methods.updatePurchaseStats` (`Customer.js` lines
269–280); returns the updated customer together with the earned
points that the method returns. -/
def updatePurchaseStats (c : Customer) (billAmount : ℚ) : Customer × ℤ :=
  let totalPurchases := c.totalPurchases + 1
  let totalSpent := c.totalSpent + billAmount
  let earnedPoints := calculateLoyaltyPoints c billAmount
  ({ c with
      totalPurchases := totalPurchases
      totalSpent := totalSpent
      averageOrderValue := totalSpent / totalPurchases
      loyaltyPoints := c.loyaltyPoints + (earnedPoints : ℚ) }, earnedPoints)

/-- The customer-type pre-save hook (`Customer.js` lines 234–245):
upgrade the tier when `totalSpent` crosses a threshold. -/
def customerPreSave (c : Customer) : Customer :=
  if 100000 ≤ c.totalSpent then { c with customerType := CustomerType.vip }
  else if 50000 ≤ c.totalSpent then { c with customerType := CustomerType.loyal }
  else if 10000 ≤ c.totalSpent then { c with customerType := CustomerType.regular }
  else c

/-! ## Settlement coordinator (`routes/bills.js`) -/

/-- One insufficient-stock report entry (`bills.js` lines 227–231). -/
structure Shortfall where
  product : String
  available : Int
  requested : Nat
  deriving DecidableEq, Repr

/-- The error kinds surfaced by the bills route handlers. -/
inductive BillError where
  | customerNotFound
  | productNotFound (productId : Nat)
  | productInactive (name : String)
  | insufficientStock (shortfalls : List Shortfall)
  | alreadySettled
  | overpayment (remainingBalance : ℚ)
  | alreadyCancelled
  | cannotCancelPaidBill
  deriving DecidableEq, Repr

/-- One requested cart entry of `POST /api/bills` (`bills.js` lines
179–184); `discountPercentage` is the `item.discountPercentage || 0`
value. -/
structure CartItem where
  productId : Nat
  quantity : Nat
  discountPercentage : ℚ
  deriving DecidableEq, Repr

/-- `Product.findById` over the product collection, modelled as a list. -/
def findProduct (products : List Product) (productId : Nat) : Option Product :=
  products.find? fun p => p.id == productId

/-- The per-item computation of `POST /api/bills` (`bills.js` lines
235–255): snapshot the product data and price the line. -/
def mkBillItem (product : Product) (item : CartItem) : BillItem :=
  let unitPrice := product.sellingPrice
  let discountPercentage := item.discountPercentage
  let discountAmount := (unitPrice * (item.quantity : ℚ)) * (discountPercentage / 100)
  let afterDiscount := (unitPrice * (item.quantity : ℚ)) - discountAmount
  let taxAmount := afterDiscount * (product.taxRate / 100)
  { product := product.id
    productName := product.name
    sku := product.sku
    quantity := item.quantity
    unit := product.unit
    unitPrice := unitPrice
    discountPercentage := discountPercentage
    discountAmount := discountAmount
    taxRate := product.taxRate
    taxAmount := taxAmount
    lineTotal := afterDiscount + taxAmount }

/-- The validation loop of `POST /api/bills` (`bills.js` lines
209–256): a missing or inactive product returns immediately, while
insufficient-stock entries are collected across the whole cart. -/
def buildItems (products : List Product) :
    List CartItem → Except BillError (List BillItem × List Shortfall)
  | [] => Except.ok ([], [])
  | item :: rest =>
    match findProduct products item.productId with
    | none => Except.error (BillError.productNotFound item.productId)
    | some product =>
      if product.isActive = false then
        Except.error (BillError.productInactive product.name)
      else if product.stockQuantity < (item.quantity : Int) then
        match buildItems products rest with
        | Except.error e => Except.error e
        | Except.ok (bis, sfs) =>
          Except.ok (bis,
            ⟨product.name, product.stockQuantity, item.quantity⟩ :: sfs)
      else
        match buildItems products rest with
        | Except.error e => Except.error e
        | Except.ok (bis, sfs) => Except.ok (mkBillItem product item :: bis, sfs)

/-- The `$inc { stockQuantity: -qty, salesCount: qty }` update applied
to the matching product (`bills.js` lines 284–289). -/
def stockDecStep (it : BillItem) (p : Product) : Product :=
  if p.id = it.product then
    { p with
      stockQuantity := p.stockQuantity - (it.quantity : Int)
      salesCount := p.salesCount + (it.quantity : Int) }
  else p

/-- The stock-decrement loop of `POST /api/bills` (`bills.js` lines
284–289). -/
def applyStockDecrements (products : List Product) (items : List BillItem) :
    List Product :=
  items.foldl (fun acc it => acc.map (stockDecStep it)) products

/-- The `$inc { stockQuantity: qty, salesCount: -qty }` restore applied
to the matching product (`bills.js` lines 581–591). -/
def stockIncStep (it : BillItem) (p : Product) : Product :=
  if p.id = it.product then
    { p with
      stockQuantity := p.stockQuantity + (it.quantity : Int)
      salesCount := p.salesCount - (it.quantity : Int) }
  else p

/-- The stock-restore loop of `PUT /api/bills/:id/cancel`
(`bills.js` lines 581–591). -/
def applyStockRestores (products : List Product) (items : List BillItem) :
    List Product :=
  items.foldl (fun acc it => acc.map (stockIncStep it)) products

/-- The request body of `POST /api/bills` (`bills.js` line 194). -/
structure CreateBillRequest where
  items : List CartItem
  cashier : String
  paymentMethod : String
  paymentDetails : Option (List PaymentRecord)
  loyaltyPointsUsed : ℚ
  notes : String
  deriving Repr

/-- What a successful `POST /api/bills` produces: the persisted bill,
the updated product collection and customer document, and the
`loyaltyPointsEarned` figure returned in the response. -/
structure CreateBillResult where
  bill : Bill
  products : List Product
  customer : Customer
  loyaltyPointsEarned : ℤ
  deriving DecidableEq, Repr

/-- `paymentDetails.reduce((sum, p) => sum + p.amount, 0)` when payment
details are supplied at creation, else 0 (`bills.js` lines 276–279). -/
def requestAmountPaid (req : CreateBillRequest) : ℚ :=
  match req.paymentDetails with
  | some pds => (pds.map fun p => p.amount).sum
  | none => 0

/-- The `billData` object handed to `Bill.create` (`bills.js` lines
267–279); the omitted fields take the schema defaults. -/
def billDataOf (customerDoc : Customer) (req : CreateBillRequest)
    (billItems : List BillItem) : Bill :=
  { customer := customerDoc.id
    items := billItems
    cashier := req.cashier
    paymentMethod := req.paymentMethod
    paymentDetails := req.paymentDetails.getD []
    amountPaid := requestAmountPaid req
    loyaltyPointsUsed := req.loyaltyPointsUsed
    notes := req.notes }

/-- The success branch of `POST /api/bills` (`bills.js` lines
266–313): create the bill (whose `save` runs `preSaveTotals`),
decrement stock, update the customer statistics, deduct used loyalty
points and save the customer. -/
def finalizeBillData (products : List Product) (customerDoc : Customer)
    (req : CreateBillRequest) (billItems : List BillItem) : CreateBillResult :=
  let bill := preSaveTotals (billDataOf customerDoc req billItems)
  let products2 := applyStockDecrements products billItems
  let statsResult := updatePurchaseStats customerDoc bill.grandTotal
  let c2 :=
    if 0 < req.loyaltyPointsUsed then
      { statsResult.1 with
        loyaltyPoints := statsResult.1.loyaltyPoints - req.loyaltyPointsUsed }
    else statsResult.1
  ⟨bill, products2, customerPreSave c2, statsResult.2⟩

/-- `POST /api/bills` (`bills.js` lines 192–322), the finalize-bill
operation: validate the cart, then run the success branch.  The
customer document is passed in (the route has already resolved
`Customer.findById`). -/
def createBill (products : List Product) (customerDoc : Customer)
    (req : CreateBillRequest) : Except BillError CreateBillResult :=
  match buildItems products req.items with
  | Except.error e => Except.error e
  | Except.ok (billItems, insufficientStock) =>
    if insufficientStock.isEmpty = false then
      Except.error (BillError.insufficientStock insufficientStock)
    else
      Except.ok (finalizeBillData products customerDoc req billItems)

/-- `POST /api/bills/:id/payments` (`bills.js` lines 395–442): reject
when already fully paid, reject overpayment against the remaining
balance, otherwise apply the payment. -/
def postPayment (b : Bill) (method : String) (amount : ℚ) (reference : String) :
    Except BillError Bill :=
  if b.paymentStatus = PaymentStatus.paid then
    Except.error BillError.alreadySettled
  else
    let remainingBalance := b.grandTotal - b.amountPaid - b.loyaltyPointsUsed
    if remainingBalance < amount then
      Except.error (BillError.overpayment remainingBalance)
    else
      Except.ok (applyPayment b ⟨method, amount, reference, "completed"⟩)

/-- The customer-statistics reversal of `PUT /api/bills/:id/cancel`
(`bills.js` lines 594–609), run only for `completed` bills. -/
def reverseCustomerStats (c : Customer) (bill : Bill) : Customer :=
  let totalPurchases := max 0 (c.totalPurchases - 1)
  let totalSpent := max 0 (c.totalSpent - bill.grandTotal)
  let loyaltyPoints :=
    max 0 (c.loyaltyPoints + bill.loyaltyPointsUsed - bill.loyaltyPointsEarned)
  let averageOrderValue :=
    if 0 < totalPurchases then totalSpent / totalPurchases else 0
  { c with
    totalPurchases := totalPurchases
    totalSpent := totalSpent
    loyaltyPoints := loyaltyPoints
    averageOrderValue := averageOrderValue }

/-- What `PUT /api/bills/:id/cancel` produces on success. -/
structure CancelResult where
  bill : Bill
  products : List Product
  customer : Customer
  deriving DecidableEq, Repr

/-- `PUT /api/bills/:id/cancel` (`bills.js` lines 553–623): forbid
cancelling an already-cancelled bill or a completed-and-paid bill;
otherwise restore stock and sales counters, reverse customer
statistics when the bill was `completed`, append the reason to the
notes and set the status to `cancelled` (the final `save` re-runs
`preSaveTotals`). -/
def cancelBill (bill : Bill) (products : List Product) (customerDoc : Customer)
    (reason : String) : Except BillError CancelResult :=
  if bill.status = BillStatus.cancelled then
    Except.error BillError.alreadyCancelled
  else if bill.status = BillStatus.completed ∧ bill.paymentStatus = PaymentStatus.paid then
    Except.error BillError.cannotCancelPaidBill
  else
    let products2 := applyStockRestores products bill.items
    let customer2 :=
      if bill.status = BillStatus.completed then
        customerPreSave (reverseCustomerStats customerDoc bill)
      else customerDoc
    let bill2 := preSaveTotals
      { bill with
        status := BillStatus.cancelled
        notes := (bill.notes ++ "\nCancelled: " ++ reason).trim }
    Except.ok ⟨bill2, products2, customer2⟩

/-- Replay a sequence of `POST /api/bills/:id/payments` requests
against one bill: a rejected request leaves the stored bill unchanged. -/
def applyPaymentsSeq (b : Bill) (reqs : List PaymentRecord) : Bill :=
  reqs.foldl
    (fun acc r =>
      match postPayment acc r.method r.amount r.reference with
      | Except.ok b2 => b2
      | Except.error _ => acc) b

/-- The recomputed grand total of the pre-save hook, as a function of
the bill's items and delivery charges. -/
def grandOfBill (b : Bill) : ℚ :=
  grandOf (b.items.map recalcItem) b.deliveryCharges

/-! ## Stock mutation lemmas -/

/-- Total quantity requested of product `pid` across a list of items. -/
def qtyFor (items : List BillItem) (pid : Nat) : Int :=
  (items.map fun it => if pid = it.product then (it.quantity : Int) else 0).sum

/-! ## Concrete inputs used by scenarios, witnesses and counterexamples -/

/-- Scenario A line: price ₹100, qty 3, discount 10 %, tax 18 %. -/
def scenarioAItem : BillItem :=
  { product := 1, productName := "Scenario A", sku := "A1", quantity := 3
    unit := "piece", unitPrice := 100, discountPercentage := 10
    discountAmount := 0, taxRate := 18, taxAmount := 0, lineTotal := 0 }

/-- A schema-valid bill whose only line is free of charge; its grand
total is 0. -/
def freeBill : Bill :=
  { customer := 1
    items := [{ product := 1, productName := "Free sample", sku := "F1"
                quantity := 1, unit := "piece", unitPrice := 0
                discountPercentage := 0, discountAmount := 0, taxRate := 0
                taxAmount := 0, lineTotal := 0 }]
    cashier := "c" }

/-- Scenario C's starting bill: one ₹1000 line, nothing paid. -/
def scenarioCBill : Bill := preSaveTotals
  { customer := 7
    items := [{ product := 1, productName := "Scenario C", sku := "C1"
                quantity := 1, unit := "piece", unitPrice := 1000
                discountPercentage := 0, discountAmount := 0, taxRate := 0
                taxAmount := 0, lineTotal := 0 }]
    cashier := "c" }

/-! ## C10 — loyalty points block full settlement -/

/-- Invariant carried across payment requests: consistent stored grand
total `G`, loyalty points used `L`, paid amount strictly below `G`,
status `pending` or `partial`. -/
def payInvariant (G L : ℚ) (b : Bill) : Prop :=
  b.grandTotal = G ∧ grandOfBill b = G ∧ b.loyaltyPointsUsed = L
    ∧ b.amountPaid < G
    ∧ (b.paymentStatus = PaymentStatus.pending
        ∨ b.paymentStatus = PaymentStatus.partPaid)

/-- Scenario input for C10's witness: grand total 1000, 200 loyalty
points applied. -/
def loyaltyGapBill : Bill :=
  { customer := 1
    items := [{ product := 1, productName := "Gap", sku := "G1", quantity := 1
                unit := "piece", unitPrice := 1000, discountPercentage := 0
                discountAmount := 0, taxRate := 0, taxAmount := 0, lineTotal := 0 }]
    loyaltyPointsUsed := 200
    cashier := "c" }

/-! ## C4 — insufficient-stock collection -/

/-- The insufficient-stock entries the validation loop collects for a
cart: one entry per item whose product is found but has
`stockQuantity < quantity`, in cart order. -/
def shortfallsOf (products : List Product) (items : List CartItem) : List Shortfall :=
  items.filterMap fun item =>
    match findProduct products item.productId with
    | some p =>
      if p.stockQuantity < (item.quantity : Int) then
        some ⟨p.name, p.stockQuantity, item.quantity⟩
      else none
    | none => none

/-- Whether a create-bill outcome is an `InsufficientStock` failure. -/
def failsWithInsufficientStock (r : Except BillError CreateBillResult) : Bool :=
  match r with
  | Except.error (BillError.insufficientStock _) => true
  | _ => false

/-- Scenario B product: 3 in stock. -/
def scenarioBProduct : Product :=
  { id := 1, name := "Low stock", sku := "B1", unit := "piece"
    sellingPrice := 50, taxRate := 0, stockQuantity := 3, salesCount := 0
    isActive := true }

/-- Scenario B customer. -/
def scenarioBCustomer : Customer :=
  { id := 2, customerType := CustomerType.regular, loyaltyPoints := 0
    totalSpent := 0, totalPurchases := 0, averageOrderValue := 0 }

/-- Scenario B request: quantity 5 of the product with stock 3. -/
def scenarioBReq : CreateBillRequest :=
  { items := [⟨1, 5, 0⟩], cashier := "c", paymentMethod := "cash"
    paymentDetails := none, loyaltyPointsUsed := 0, notes := "" }

/-- A cart that also references a missing product (id 99) after the
short item. -/
def mixedCartReq : CreateBillRequest :=
  { items := [⟨1, 5, 0⟩, ⟨99, 1, 0⟩], cashier := "c", paymentMethod := "cash"
    paymentDetails := none, loyaltyPointsUsed := 0, notes := "" }

/-- Scenario D product: a ₹2000 item. -/
def scenarioDProduct : Product :=
  { id := 1, name := "TV", sku := "TV1", unit := "piece"
    sellingPrice := 2000, taxRate := 0, stockQuantity := 5, salesCount := 0
    isActive := true }

/-- Scenario D customer: `vip` tier. -/
def scenarioDCustomer : Customer :=
  { id := 9, customerType := CustomerType.vip, loyaltyPoints := 10
    totalSpent := 0, totalPurchases := 0, averageOrderValue := 0 }

/-- Scenario D request. -/
def scenarioDReq : CreateBillRequest :=
  { items := [⟨1, 1, 0⟩], cashier := "c", paymentMethod := "cash"
    paymentDetails := none, loyaltyPointsUsed := 0, notes := "" }

/-- The result of finalizing Scenario D, written out. -/
def scenarioDResult : CreateBillResult :=
  { bill :=
      { customer := 9
        items := [{ product := 1, productName := "TV", sku := "TV1"
                    quantity := 1, unit := "piece", unitPrice := 2000
                    discountPercentage := 0, discountAmount := 0, taxRate := 0
                    taxAmount := 0, lineTotal := 2000 }]
        subtotal := 2000, totalDiscount := 0, totalTax := 0, grandTotal := 2000
        loyaltyPointsUsed := 0, loyaltyPointsEarned := 0
        paymentMethod := "cash", paymentDetails := []
        paymentStatus := PaymentStatus.pending, amountPaid := 0
        amountDue := 2000, status := BillStatus.draft, cashier := "c"
        notes := "", deliveryCharges := 0 }
    products := [{ id := 1, name := "TV", sku := "TV1", unit := "piece"
                   sellingPrice := 2000, taxRate := 0, stockQuantity := 4
                   salesCount := 1, isActive := true }]
    customer := { id := 9, customerType := CustomerType.vip, loyaltyPoints := 50
                  totalSpent := 2000, totalPurchases := 1, averageOrderValue := 2000 }
    loyaltyPointsEarned := 40 }

/-- C5 counterexample product (₹300). -/
def oddBaseProduct : Product :=
  { id := 1, name := "Basket", sku := "BK1", unit := "piece"
    sellingPrice := 300, taxRate := 0, stockQuantity := 5, salesCount := 0
    isActive := true }

/-- C5 counterexample customer: `loyal` tier (multiplier 1.5). -/
def oddBaseCustomer : Customer :=
  { id := 4, customerType := CustomerType.loyal, loyaltyPoints := 0
    totalSpent := 0, totalPurchases := 0, averageOrderValue := 0 }

/-- C5 counterexample request. -/
def oddBaseReq : CreateBillRequest :=
  { items := [⟨1, 1, 0⟩], cashier := "c", paymentMethod := "cash"
    paymentDetails := none, loyaltyPointsUsed := 0, notes := "" }

/-- The result of finalizing the ₹300 `loyal` bill, written out. -/
def oddBaseResult : CreateBillResult :=
  { bill :=
      { customer := 4
        items := [{ product := 1, productName := "Basket", sku := "BK1"
                    quantity := 1, unit := "piece", unitPrice := 300
                    discountPercentage := 0, discountAmount := 0, taxRate := 0
                    taxAmount := 0, lineTotal := 300 }]
        subtotal := 300, totalDiscount := 0, totalTax := 0, grandTotal := 300
        loyaltyPointsUsed := 0, loyaltyPointsEarned := 0
        paymentMethod := "cash", paymentDetails := []
        paymentStatus := PaymentStatus.pending, amountPaid := 0
        amountDue := 300, status := BillStatus.draft, cashier := "c"
        notes := "", deliveryCharges := 0 }
    products := [{ id := 1, name := "Basket", sku := "BK1", unit := "piece"
                   sellingPrice := 300, taxRate := 0, stockQuantity := 4
                   salesCount := 1, isActive := true }]
    customer := { id := 4, customerType := CustomerType.loyal, loyaltyPoints := 4
                  totalSpent := 300, totalPurchases := 1, averageOrderValue := 300 }
    loyaltyPointsEarned := 4 }

/-- C6 counterexample product: a ₹100 item. -/
def uncappedProduct : Product :=
  { id := 1, name := "Cap test", sku := "CP1", unit := "piece"
    sellingPrice := 100, taxRate := 0, stockQuantity := 5, salesCount := 0
    isActive := true }

/-- C6 counterexample customer. -/
def uncappedCustomer : Customer :=
  { id := 5, customerType := CustomerType.regular, loyaltyPoints := 200
    totalSpent := 0, totalPurchases := 0, averageOrderValue := 0 }

/-- C6 counterexample request: redeem 100 points against a ₹100 bill,
double the 50-point cap. -/
def uncappedReq : CreateBillRequest :=
  { items := [⟨1, 1, 0⟩], cashier := "c", paymentMethod := "cash"
    paymentDetails := none, loyaltyPointsUsed := 100, notes := "" }

/-- The result the route produces for the over-cap request. -/
def uncappedResult : CreateBillResult :=
  { bill :=
      { customer := 5
        items := [{ product := 1, productName := "Cap test", sku := "CP1"
                    quantity := 1, unit := "piece", unitPrice := 100
                    discountPercentage := 0, discountAmount := 0, taxRate := 0
                    taxAmount := 0, lineTotal := 100 }]
        subtotal := 100, totalDiscount := 0, totalTax := 0, grandTotal := 100
        loyaltyPointsUsed := 100, loyaltyPointsEarned := 0
        paymentMethod := "cash", paymentDetails := []
        paymentStatus := PaymentStatus.pending, amountPaid := 0
        amountDue := 0, status := BillStatus.draft, cashier := "c"
        notes := "", deliveryCharges := 0 }
    products := [{ id := 1, name := "Cap test", sku := "CP1", unit := "piece"
                   sellingPrice := 100, taxRate := 0, stockQuantity := 4
                   salesCount := 1, isActive := true }]
    customer := { id := 5, customerType := CustomerType.regular, loyaltyPoints := 101
                  totalSpent := 100, totalPurchases := 1, averageOrderValue := 100 }
    loyaltyPointsEarned := 1 }

/-- C7 product: soap, 10 in stock, 2 sold so far. -/
def rtProduct : Product :=
  { id := 1, name := "Soap", sku := "SP1", unit := "piece"
    sellingPrice := 90, taxRate := 0, stockQuantity := 10, salesCount := 2
    isActive := true }

/-- C7 customer: no purchase history. -/
def rtCustomer : Customer :=
  { id := 6, customerType := CustomerType.regular, loyaltyPoints := 0
    totalSpent := 0, totalPurchases := 0, averageOrderValue := 0 }

/-- C7 request: 3 soaps. -/
def rtReq : CreateBillRequest :=
  { items := [⟨1, 3, 0⟩], cashier := "c", paymentMethod := "cash"
    paymentDetails := none, loyaltyPointsUsed := 0, notes := "" }

/-- The finalize result for the C7 inputs, written out. -/
def rtResult : CreateBillResult :=
  { bill :=
      { customer := 6
        items := [{ product := 1, productName := "Soap", sku := "SP1"
                    quantity := 3, unit := "piece", unitPrice := 90
                    discountPercentage := 0, discountAmount := 0, taxRate := 0
                    taxAmount := 0, lineTotal := 270 }]
        subtotal := 270, totalDiscount := 0, totalTax := 0, grandTotal := 270
        loyaltyPointsUsed := 0, loyaltyPointsEarned := 0
        paymentMethod := "cash", paymentDetails := []
        paymentStatus := PaymentStatus.pending, amountPaid := 0
        amountDue := 270, status := BillStatus.draft, cashier := "c"
        notes := "", deliveryCharges := 0 }
    products := [{ id := 1, name := "Soap", sku := "SP1", unit := "piece"
                   sellingPrice := 90, taxRate := 0, stockQuantity := 7
                   salesCount := 5, isActive := true }]
    customer := { id := 6, customerType := CustomerType.regular, loyaltyPoints := 2
                  totalSpent := 270, totalPurchases := 1, averageOrderValue := 270 }
    loyaltyPointsEarned := 2 }

/-- C8 customer with purchase history. -/
def c8Customer : Customer :=
  { id := 3, customerType := CustomerType.regular, loyaltyPoints := 50
    totalSpent := 500, totalPurchases := 2, averageOrderValue := 250 }

/-- A draft ₹100 bill for the C8 counterexample. -/
def c8DraftBill : Bill := preSaveTotals
  { customer := 3
    items := [{ product := 1, productName := "Mug", sku := "MG1", quantity := 1
                unit := "piece", unitPrice := 100, discountPercentage := 0
                discountAmount := 0, taxRate := 0, taxAmount := 0, lineTotal := 0 }]
    cashier := "c" }

/-- A stored `completed` + `paid` bill (Scenario E, first half). -/
def scenarioEPaidBill : Bill :=
  { customer := 3
    items := [{ product := 1, productName := "Mug", sku := "MG1", quantity := 1
                unit := "piece", unitPrice := 100, discountPercentage := 0
                discountAmount := 0, taxRate := 0, taxAmount := 0, lineTotal := 100 }]
    subtotal := 100, grandTotal := 100, totalTax := 0
    paymentMethod := "cash", paymentStatus := PaymentStatus.paid
    amountPaid := 100, amountDue := 0
    status := BillStatus.completed, cashier := "c" }

/-- The same bill while still unpaid (Scenario E, second half). -/
def scenarioEPendingBill : Bill :=
  { scenarioEPaidBill with
    paymentStatus := PaymentStatus.pending
    amountPaid := 0
    amountDue := 100 }

/-! ## Basic lemmas about the item recalculation and the pre-save hook -/

@[simp] theorem recalcItem_product (it : BillItem) :
    (recalcItem it).product = it.product := rfl

@[simp] theorem recalcItem_quantity (it : BillItem) :
    (recalcItem it).quantity = it.quantity := rfl

@[simp] theorem recalcItem_unitPrice (it : BillItem) :
    (recalcItem it).unitPrice = it.unitPrice := rfl

@[simp] theorem recalcItem_discountPercentage (it : BillItem) :
    (recalcItem it).discountPercentage = it.discountPercentage := rfl

@[simp] theorem recalcItem_taxRate (it : BillItem) :
    (recalcItem it).taxRate = it.taxRate := rfl

@[simp] theorem recalcItem_discountAmount (it : BillItem) :
    (recalcItem it).discountAmount = itemDiscount it := rfl

@[simp] theorem recalcItem_taxAmount (it : BillItem) :
    (recalcItem it).taxAmount = itemTax it := rfl

@[simp] theorem recalcItem_lineTotal (it : BillItem) :
    (recalcItem it).lineTotal = (itemGross it - itemDiscount it) + itemTax it := rfl

@[simp] theorem itemGross_recalcItem (it : BillItem) :
    itemGross (recalcItem it) = itemGross it := rfl

@[simp] theorem itemDiscount_recalcItem (it : BillItem) :
    itemDiscount (recalcItem it) = itemDiscount it := rfl

@[simp] theorem itemTax_recalcItem (it : BillItem) :
    itemTax (recalcItem it) = itemTax it := rfl

@[simp] theorem recalcItem_idem (it : BillItem) :
    recalcItem (recalcItem it) = recalcItem it := rfl

theorem map_recalcItem_idem (items : List BillItem) :
    (items.map recalcItem).map recalcItem = items.map recalcItem := by
  simp [List.map_map, Function.comp_def]

/-- Characterization of the totals pre-save hook as one record update. -/
theorem preSaveTotals_eq (b : Bill) :
    preSaveTotals b =
      { b with
        items := b.items.map recalcItem
        subtotal := subtotalOf (b.items.map recalcItem)
        totalDiscount := discountOf (b.items.map recalcItem)
        totalTax := taxOf (b.items.map recalcItem)
        grandTotal := grandOfBill b
        amountDue :=
          if grandOfBill b ≤ b.amountPaid then 0
          else grandOfBill b - b.amountPaid - b.loyaltyPointsUsed
        paymentStatus :=
          if grandOfBill b ≤ b.amountPaid then PaymentStatus.paid
          else if 0 < b.amountPaid then PaymentStatus.partPaid
          else PaymentStatus.pending } := by
  simp only [preSaveTotals, grandOfBill]
  split_ifs with h1 h2 <;> rfl

@[simp] theorem preSave_customer (b : Bill) :
    (preSaveTotals b).customer = b.customer := by rw [preSaveTotals_eq]

@[simp] theorem preSave_items (b : Bill) :
    (preSaveTotals b).items = b.items.map recalcItem := by rw [preSaveTotals_eq]

@[simp] theorem preSave_subtotal (b : Bill) :
    (preSaveTotals b).subtotal = subtotalOf (b.items.map recalcItem) := by
  rw [preSaveTotals_eq]

@[simp] theorem preSave_totalDiscount (b : Bill) :
    (preSaveTotals b).totalDiscount = discountOf (b.items.map recalcItem) := by
  rw [preSaveTotals_eq]

@[simp] theorem preSave_totalTax (b : Bill) :
    (preSaveTotals b).totalTax = taxOf (b.items.map recalcItem) := by
  rw [preSaveTotals_eq]

@[simp] theorem preSave_grandTotal (b : Bill) :
    (preSaveTotals b).grandTotal = grandOfBill b := by rw [preSaveTotals_eq]

@[simp] theorem preSave_loyaltyPointsUsed (b : Bill) :
    (preSaveTotals b).loyaltyPointsUsed = b.loyaltyPointsUsed := by
  rw [preSaveTotals_eq]

@[simp] theorem preSave_loyaltyPointsEarned (b : Bill) :
    (preSaveTotals b).loyaltyPointsEarned = b.loyaltyPointsEarned := by
  rw [preSaveTotals_eq]

@[simp] theorem preSave_paymentMethod (b : Bill) :
    (preSaveTotals b).paymentMethod = b.paymentMethod := by rw [preSaveTotals_eq]

@[simp] theorem preSave_paymentDetails (b : Bill) :
    (preSaveTotals b).paymentDetails = b.paymentDetails := by rw [preSaveTotals_eq]

@[simp] theorem preSave_amountPaid (b : Bill) :
    (preSaveTotals b).amountPaid = b.amountPaid := by rw [preSaveTotals_eq]

@[simp] theorem preSave_status (b : Bill) :
    (preSaveTotals b).status = b.status := by rw [preSaveTotals_eq]

@[simp] theorem preSave_cashier (b : Bill) :
    (preSaveTotals b).cashier = b.cashier := by rw [preSaveTotals_eq]

@[simp] theorem preSave_notes (b : Bill) :
    (preSaveTotals b).notes = b.notes := by rw [preSaveTotals_eq]

@[simp] theorem preSave_deliveryCharges (b : Bill) :
    (preSaveTotals b).deliveryCharges = b.deliveryCharges := by rw [preSaveTotals_eq]

theorem preSave_amountDue (b : Bill) :
    (preSaveTotals b).amountDue =
      if grandOfBill b ≤ b.amountPaid then 0
      else grandOfBill b - b.amountPaid - b.loyaltyPointsUsed := by
  rw [preSaveTotals_eq]

theorem preSave_paymentStatus (b : Bill) :
    (preSaveTotals b).paymentStatus =
      if grandOfBill b ≤ b.amountPaid then PaymentStatus.paid
      else if 0 < b.amountPaid then PaymentStatus.partPaid
      else PaymentStatus.pending := by
  rw [preSaveTotals_eq]

/-- Re-running the aggregation on already-recalculated items yields the
same grand total: a second `save` does not drift the totals. -/
theorem grandOf_recalc_stable (items : List BillItem) (d : ℚ) :
    grandOf ((items.map recalcItem).map recalcItem) d
      = grandOf (items.map recalcItem) d := by
  rw [map_recalcItem_idem]

@[simp] theorem qtyFor_nil (pid : Nat) : qtyFor [] pid = 0 := rfl

theorem qtyFor_cons (it : BillItem) (rest : List BillItem) (pid : Nat) :
    qtyFor (it :: rest) pid
      = (if pid = it.product then (it.quantity : Int) else 0) + qtyFor rest pid := by
  simp [qtyFor]

theorem qtyFor_map_recalcItem (items : List BillItem) (pid : Nat) :
    qtyFor (items.map recalcItem) pid = qtyFor items pid := by
  simp [qtyFor, List.map_map, Function.comp_def]

/-- A fold of per-product collection updates is a pointwise map of the
folded per-product function. -/
theorem foldl_map_update (f : BillItem → Product → Product)
    (items : List BillItem) (ps : List Product) :
    items.foldl (fun acc it => acc.map (f it)) ps
      = ps.map fun p => items.foldl (fun q it => f it q) p := by
  induction items generalizing ps with
  | nil => simp
  | cons it rest ih => simp [ih, List.map_map, Function.comp_def]

theorem foldl_stockDecStep (items : List BillItem) (p : Product) :
    items.foldl (fun q it => stockDecStep it q) p
      = { p with
          stockQuantity := p.stockQuantity - qtyFor items p.id
          salesCount := p.salesCount + qtyFor items p.id } := by
  induction items generalizing p with
  | nil => simp
  | cons it rest ih =>
    rw [List.foldl_cons, ih]
    by_cases h : p.id = it.product
    · simp [stockDecStep, h, qtyFor_cons, sub_sub, add_assoc]
    · simp [stockDecStep, h, qtyFor_cons]

theorem foldl_stockIncStep (items : List BillItem) (p : Product) :
    items.foldl (fun q it => stockIncStep it q) p
      = { p with
          stockQuantity := p.stockQuantity + qtyFor items p.id
          salesCount := p.salesCount - qtyFor items p.id } := by
  induction items generalizing p with
  | nil => simp
  | cons it rest ih =>
    rw [List.foldl_cons, ih]
    by_cases h : p.id = it.product
    · simp [stockIncStep, h, qtyFor_cons, add_assoc, sub_sub]
    · simp [stockIncStep, h, qtyFor_cons]

theorem applyStockDecrements_eq (ps : List Product) (items : List BillItem) :
    applyStockDecrements ps items
      = ps.map fun p =>
          { p with
            stockQuantity := p.stockQuantity - qtyFor items p.id
            salesCount := p.salesCount + qtyFor items p.id } := by
  rw [applyStockDecrements, foldl_map_update]
  simp [foldl_stockDecStep]

theorem applyStockRestores_eq (ps : List Product) (items : List BillItem) :
    applyStockRestores ps items
      = ps.map fun p =>
          { p with
            stockQuantity := p.stockQuantity + qtyFor items p.id
            salesCount := p.salesCount - qtyFor items p.id } := by
  rw [applyStockRestores, foldl_map_update]
  simp [foldl_stockIncStep]

/-- Decrementing stock for a list of items and then restoring it for
the recalculated copies of the same items is the identity on the
product collection. -/
theorem stock_roundTrip (ps : List Product) (items : List BillItem) :
    applyStockRestores (applyStockDecrements ps items) (items.map recalcItem) = ps := by
  rw [applyStockDecrements_eq, applyStockRestores_eq, List.map_map]
  induction ps with
  | nil => rfl
  | cons p rest ih =>
    simp only [List.map_cons, Function.comp_apply, ih]
    congr 1
    simp [qtyFor_map_recalcItem]

@[simp] theorem pending_eq_paid_false :
    (PaymentStatus.pending = PaymentStatus.paid) = False := by decide

@[simp] theorem partPaid_eq_paid_false :
    (PaymentStatus.partPaid = PaymentStatus.paid) = False := by decide

@[simp] theorem draft_eq_completed_false :
    (BillStatus.draft = BillStatus.completed) = False := by decide

@[simp] theorem draft_eq_cancelled_false :
    (BillStatus.draft = BillStatus.cancelled) = False := by decide

/-! ## C1 — line-item calculation -/

/-- **C1** (confirmed).  For every line item with `unitPrice ≥ 0`,
integer `quantity ≥ 1`, `discountPercentage ∈ [0,100]` and
`taxRate ≥ 0`, both the pre-save hook and the `POST /api/bills` item
builder compute
`discountAmount = quantity*unitPrice*discountPercentage/100`,
`taxAmount = (quantity*unitPrice - discountAmount)*taxRate/100` and
`lineTotal = (quantity*unitPrice - discountAmount) + taxAmount`;
Scenario A (₹100, qty 3, 10 %, 18 %) yields 30, 48.6, 318.6. -/
theorem lineItem_calculator_formulas :
    (∀ it : BillItem, 0 ≤ it.unitPrice → 1 ≤ it.quantity →
        0 ≤ it.discountPercentage → it.discountPercentage ≤ 100 → 0 ≤ it.taxRate →
        (recalcItem it).discountAmount
            = (it.quantity : ℚ) * it.unitPrice * it.discountPercentage / 100
          ∧ (recalcItem it).taxAmount
            = ((it.quantity : ℚ) * it.unitPrice - (recalcItem it).discountAmount)
                * it.taxRate / 100
          ∧ (recalcItem it).lineTotal
            = ((it.quantity : ℚ) * it.unitPrice - (recalcItem it).discountAmount)
                + (recalcItem it).taxAmount)
    ∧ (∀ (p : Product) (c : CartItem), 0 ≤ p.sellingPrice → 1 ≤ c.quantity →
        0 ≤ c.discountPercentage → c.discountPercentage ≤ 100 → 0 ≤ p.taxRate →
        (mkBillItem p c).discountAmount
            = (c.quantity : ℚ) * p.sellingPrice * c.discountPercentage / 100
          ∧ (mkBillItem p c).taxAmount
            = ((c.quantity : ℚ) * p.sellingPrice - (mkBillItem p c).discountAmount)
                * p.taxRate / 100
          ∧ (mkBillItem p c).lineTotal
            = ((c.quantity : ℚ) * p.sellingPrice - (mkBillItem p c).discountAmount)
                + (mkBillItem p c).taxAmount)
    ∧ ((recalcItem scenarioAItem).discountAmount = 30
        ∧ (recalcItem scenarioAItem).taxAmount = 48.6
        ∧ (recalcItem scenarioAItem).lineTotal = 318.6) := by
  refine ⟨fun it _ _ _ _ _ => ⟨?_, ?_, ?_⟩, fun p c _ _ _ _ _ => ⟨?_, ?_, ?_⟩, ?_⟩
  · simp [recalcItem, itemDiscount, itemGross]; ring
  · simp [recalcItem, itemTax, itemDiscount, itemGross]; ring
  · simp [recalcItem, itemTax, itemDiscount, itemGross]
  · simp [mkBillItem]; ring
  · simp [mkBillItem]; ring
  · simp [mkBillItem]; ring
  · refine ⟨?_, ?_, ?_⟩ <;>
      norm_num [recalcItem, itemTax, itemDiscount, itemGross, scenarioAItem]

/-- Witness for C1 at Scenario A's numbers. -/
theorem lineItem_calculator_formulas_witness :
    (recalcItem scenarioAItem).discountAmount
        = (scenarioAItem.quantity : ℚ) * scenarioAItem.unitPrice
            * scenarioAItem.discountPercentage / 100
      ∧ (recalcItem scenarioAItem).lineTotal
        = ((scenarioAItem.quantity : ℚ) * scenarioAItem.unitPrice
            - (recalcItem scenarioAItem).discountAmount)
            + (recalcItem scenarioAItem).taxAmount := by
  have h := lineItem_calculator_formulas.1 scenarioAItem
    (by norm_num [scenarioAItem]) (by norm_num [scenarioAItem])
    (by norm_num [scenarioAItem]) (by norm_num [scenarioAItem])
    (by norm_num [scenarioAItem])
  exact ⟨h.1, h.2.2⟩

/-! ## C2 — aggregate invariants maintained by every save -/

/-- Counterexample to C2 as stated: on a bill whose grand total is 0,
`amountPaid = 0` yields `paymentStatus = paid` (the `amountPaid ≥
grandTotal` branch wins), not `pending` as the claim's case analysis
requires. -/
theorem zeroTotal_bill_paymentStatus_cex :
    (preSaveTotals freeBill).amountPaid = 0
      ∧ (preSaveTotals freeBill).grandTotal = 0
      ∧ (preSaveTotals freeBill).paymentStatus = PaymentStatus.paid
      ∧ PaymentStatus.paid ≠ PaymentStatus.pending := by
  refine ⟨?_, ?_, ?_, by decide⟩ <;>
    norm_num [freeBill, preSaveTotals, grandOf, subtotalOf, discountOf, taxOf,
      recalcItem, itemGross, itemDiscount, itemTax]

/-- **C2** (corrected).  After every save, `subtotal`, `totalDiscount`,
`totalTax` are the item sums, `grandTotal = subtotal - totalDiscount +
totalTax + deliveryCharge`, and `amountDue`/`paymentStatus` are
re-derived from `amountPaid` vs `grandTotal` — with the `paid` branch
checked first: `amountPaid ≥ grandTotal → paid` (and `amountDue = 0`),
otherwise `amountDue = grandTotal - amountPaid - loyaltyPointsUsed`
with `0 < amountPaid → partial` and `amountPaid = 0 → pending`. -/
theorem bill_aggregate_invariants (b : Bill) :
    (preSaveTotals b).subtotal = subtotalOf (preSaveTotals b).items
    ∧ (preSaveTotals b).totalDiscount = discountOf (preSaveTotals b).items
    ∧ (preSaveTotals b).totalTax = taxOf (preSaveTotals b).items
    ∧ (preSaveTotals b).grandTotal
        = (preSaveTotals b).subtotal - (preSaveTotals b).totalDiscount
            + (preSaveTotals b).totalTax + (preSaveTotals b).deliveryCharges
    ∧ ((preSaveTotals b).grandTotal ≤ (preSaveTotals b).amountPaid →
        (preSaveTotals b).paymentStatus = PaymentStatus.paid
          ∧ (preSaveTotals b).amountDue = 0)
    ∧ (¬ (preSaveTotals b).grandTotal ≤ (preSaveTotals b).amountPaid →
        (preSaveTotals b).amountDue
            = (preSaveTotals b).grandTotal - (preSaveTotals b).amountPaid
                - (preSaveTotals b).loyaltyPointsUsed
          ∧ (0 < (preSaveTotals b).amountPaid →
              (preSaveTotals b).paymentStatus = PaymentStatus.partPaid)
          ∧ ((preSaveTotals b).amountPaid = 0 →
              (preSaveTotals b).paymentStatus = PaymentStatus.pending)) := by
  refine ⟨by simp, by simp, by simp, by simp [grandOfBill, grandOf], ?_, ?_⟩
  · intro h
    simp only [preSave_grandTotal, preSave_amountPaid] at h
    simp [preSave_paymentStatus, preSave_amountDue, h]
  · intro h
    simp only [preSave_grandTotal, preSave_amountPaid] at h
    refine ⟨by simp [preSave_amountDue, h], fun hpos => ?_, fun hzero => ?_⟩
    · simp only [preSave_amountPaid] at hpos
      rw [preSave_paymentStatus, if_neg h, if_pos hpos]
    · simp only [preSave_amountPaid] at hzero
      rw [preSave_paymentStatus, if_neg h, if_neg (by rw [hzero]; exact lt_irrefl 0)]

/-- Witness for C2 on the Scenario A bill: unpaid, positive total,
hence `pending` with `amountDue` equal to the grand total. -/
theorem bill_aggregate_invariants_witness :
    (preSaveTotals { customer := 1, items := [scenarioAItem], cashier := "c" }).amountDue
        = 318.6
      ∧ (preSaveTotals { customer := 1, items := [scenarioAItem], cashier := "c" }).paymentStatus
        = PaymentStatus.pending := by
  have h := bill_aggregate_invariants { customer := 1, items := [scenarioAItem], cashier := "c" }
  have hg : (preSaveTotals { customer := 1, items := [scenarioAItem], cashier := "c" } : Bill).grandTotal = 318.6 := by
    norm_num [preSave_grandTotal, grandOfBill, grandOf, subtotalOf, discountOf,
      taxOf, recalcItem, itemGross, itemDiscount, itemTax, scenarioAItem]
  have hap : (preSaveTotals { customer := 1, items := [scenarioAItem], cashier := "c" } : Bill).amountPaid = 0 := by
    simp
  have hlt := h.2.2.2.2.2 (by rw [hg, hap]; norm_num)
  refine ⟨?_, hlt.2.2 hap⟩
  rw [hlt.1, hg, hap]
  norm_num

/-! ## C3 — payment application contract -/

/-- **C3** (confirmed).  For `amount > 0`: a fully-paid bill rejects the
payment with `AlreadySettled` unchanged; an amount above the remaining
balance `grandTotal - amountPaid - loyaltyPointsUsed` is rejected as
overpayment unchanged; otherwise the record is appended, `amountPaid`
grows by `amount`, and `paymentStatus`/`amountDue` are re-derived.
Scenario C: on a ₹1000 bill, paying 600 gives `partial`/due 400, then
400 gives `paid`/due 0, and a third payment fails `AlreadySettled`. -/
theorem applyPayment_contract :
    (∀ (b : Bill) (method : String) (amount : ℚ) (reference : String), 0 < amount →
      (b.paymentStatus = PaymentStatus.paid →
        postPayment b method amount reference = Except.error BillError.alreadySettled)
      ∧ (b.paymentStatus ≠ PaymentStatus.paid →
          b.grandTotal - b.amountPaid - b.loyaltyPointsUsed < amount →
          postPayment b method amount reference
            = Except.error (BillError.overpayment
                (b.grandTotal - b.amountPaid - b.loyaltyPointsUsed)))
      ∧ (b.paymentStatus ≠ PaymentStatus.paid →
          amount ≤ b.grandTotal - b.amountPaid - b.loyaltyPointsUsed →
          ∃ b2, postPayment b method amount reference = Except.ok b2
            ∧ b2.paymentDetails
                = b.paymentDetails ++ [⟨method, amount, reference, "completed"⟩]
            ∧ b2.amountPaid = b.amountPaid + amount
            ∧ b2.paymentStatus
                = (if b2.grandTotal ≤ b2.amountPaid then PaymentStatus.paid
                   else if 0 < b2.amountPaid then PaymentStatus.partPaid
                   else PaymentStatus.pending)
            ∧ b2.amountDue
                = (if b2.grandTotal ≤ b2.amountPaid then 0
                   else b2.grandTotal - b2.amountPaid - b2.loyaltyPointsUsed)))
    ∧ (∃ b1 b2, postPayment scenarioCBill "cash" 600 "" = Except.ok b1
        ∧ b1.paymentStatus = PaymentStatus.partPaid ∧ b1.amountDue = 400
        ∧ postPayment b1 "cash" 400 "" = Except.ok b2
        ∧ b2.paymentStatus = PaymentStatus.paid ∧ b2.amountDue = 0
        ∧ postPayment b2 "card" 100 "" = Except.error BillError.alreadySettled) := by
  constructor
  · intro b method amount reference _
    refine ⟨fun hpaid => ?_, fun hnot hover => ?_, fun hnot hle => ?_⟩
    · simp [postPayment, hpaid]
    · simp [postPayment, hnot, hover]
    · refine ⟨applyPayment b ⟨method, amount, reference, "completed"⟩,
        ?_, by simp [applyPayment], by simp [applyPayment], ?_, ?_⟩
      · simp [postPayment, hnot, not_lt.mpr hle]
      · simp only [applyPayment, preSave_paymentStatus, preSave_grandTotal,
          preSave_amountPaid]
      · simp only [applyPayment, preSave_amountDue, preSave_grandTotal,
          preSave_amountPaid, preSave_loyaltyPointsUsed]
  · norm_num [postPayment, applyPayment, scenarioCBill, preSaveTotals, grandOf,
      subtotalOf, discountOf, taxOf, recalcItem, itemGross, itemDiscount, itemTax]

/-- Witness for C3: a fully-paid (zero-total) bill rejects a further
₹5 payment with `AlreadySettled`. -/
theorem applyPayment_contract_witness :
    postPayment (preSaveTotals freeBill) "cash" 5 "" = Except.error BillError.alreadySettled := by
  have h := applyPayment_contract.1 (preSaveTotals freeBill) "cash" 5 "" (by norm_num)
  exact h.1 (by
    norm_num [freeBill, preSaveTotals, grandOf, subtotalOf, discountOf, taxOf,
      recalcItem, itemGross, itemDiscount, itemTax])

theorem payInvariant_step (G L : ℚ) (hL : 0 < L) (b : Bill)
    (hInv : payInvariant G L b) (r : PaymentRecord) :
    payInvariant G L
      (match postPayment b r.method r.amount r.reference with
        | Except.ok b2 => b2
        | Except.error _ => b) := by
  obtain ⟨hg, hgb, hlpu, hap, hst⟩ := hInv
  have hstNe : b.paymentStatus ≠ PaymentStatus.paid := by
    rcases hst with h | h <;> simp [h]
  rw [postPayment]
  rw [if_neg hstNe]
  by_cases hover : b.grandTotal - b.amountPaid - b.loyaltyPointsUsed < r.amount
  · rw [if_pos hover]
    exact ⟨hg, hgb, hlpu, hap, hst⟩
  · rw [if_neg hover]
    show payInvariant G L (applyPayment b ⟨r.method, r.amount, r.reference, "completed"⟩)
    set r2 : PaymentRecord := ⟨r.method, r.amount, r.reference, "completed"⟩ with hr2
    have hle : r.amount ≤ G - b.amountPaid - L := by
      rw [← hg, ← hlpu]; exact not_lt.mp hover
    have hap2 : b.amountPaid + r.amount < G := by
      have h1 : b.amountPaid + r.amount ≤ G - L := by linarith
      linarith
    have hgb2 : grandOfBill (applyPayment b r2) = G := by
      show grandOf ((applyPayment b r2).items.map recalcItem)
          (applyPayment b r2).deliveryCharges = G
      rw [applyPayment, preSave_items, preSave_deliveryCharges]
      show grandOf ((b.items.map recalcItem).map recalcItem) b.deliveryCharges = G
      rw [grandOf_recalc_stable]
      exact hgb
    have hgt2 : (applyPayment b r2).grandTotal = G := by
      rw [applyPayment, preSave_grandTotal]
      show grandOf (b.items.map recalcItem) b.deliveryCharges = G
      exact hgb
    have hapEq : (applyPayment b r2).amountPaid = b.amountPaid + r.amount := by
      simp [applyPayment, hr2]
    have hlpu2 : (applyPayment b r2).loyaltyPointsUsed = L := by
      simp [applyPayment, hr2, hlpu]
    refine ⟨hgt2, hgb2, hlpu2, ?_, ?_⟩
    · rw [hapEq]; exact hap2
    · rw [applyPayment, preSave_paymentStatus]
      have hcond : ¬ grandOfBill { b with
          paymentDetails := b.paymentDetails ++ [r2]
          amountPaid := b.amountPaid + r2.amount } ≤ b.amountPaid + r2.amount := by
        have heq : grandOfBill { b with
            paymentDetails := b.paymentDetails ++ [r2]
            amountPaid := b.amountPaid + r2.amount } = G := hgb
        rw [heq, hr2]
        exact not_le.mpr hap2
      rw [if_neg hcond]
      by_cases hp : 0 < b.amountPaid + r2.amount
      · rw [if_pos hp]; right; rfl
      · rw [if_neg hp]; left; rfl

theorem payInvariant_seq (G L : ℚ) (hL : 0 < L) (reqs : List PaymentRecord) :
    ∀ b : Bill, payInvariant G L b → payInvariant G L (applyPaymentsSeq b reqs) := by
  induction reqs with
  | nil => intro b h; exact h
  | cons r rest ih =>
    intro b h
    have hstep := payInvariant_step G L hL b h r
    have : applyPaymentsSeq b (r :: rest)
        = applyPaymentsSeq
            (match postPayment b r.method r.amount r.reference with
              | Except.ok b2 => b2
              | Except.error _ => b) rest := by
      rw [applyPaymentsSeq, List.foldl_cons]
      rfl
    rw [this]
    exact ih _ hstep

/-- **C10** (confirmed).  On a saved bill with `loyaltyPointsUsed > 0`
and `grandTotal > 0` that is not yet fully paid, no sequence of
payment requests ever makes `paymentStatus` equal to `paid`: every
accepted amount is capped by `grandTotal - amountPaid -
loyaltyPointsUsed`, so `amountPaid` stays strictly below `grandTotal`
and the bill remains `pending` or `partial` forever. -/
theorem loyalty_gap_blocks_paid (b0 : Bill) (reqs : List PaymentRecord)
    (hlpu : 0 < b0.loyaltyPointsUsed)
    (hpos : 0 < (preSaveTotals b0).grandTotal)
    (hnp : (preSaveTotals b0).amountPaid < (preSaveTotals b0).grandTotal) :
    (applyPaymentsSeq (preSaveTotals b0) reqs).paymentStatus ≠ PaymentStatus.paid
    ∧ ((applyPaymentsSeq (preSaveTotals b0) reqs).paymentStatus = PaymentStatus.pending
        ∨ (applyPaymentsSeq (preSaveTotals b0) reqs).paymentStatus
            = PaymentStatus.partPaid)
    ∧ (applyPaymentsSeq (preSaveTotals b0) reqs).amountPaid
        < (applyPaymentsSeq (preSaveTotals b0) reqs).grandTotal := by
  have hInit : payInvariant (grandOfBill b0) b0.loyaltyPointsUsed (preSaveTotals b0) := by
    refine ⟨preSave_grandTotal b0, ?_, preSave_loyaltyPointsUsed b0, ?_, ?_⟩
    · show grandOf ((preSaveTotals b0).items.map recalcItem)
          (preSaveTotals b0).deliveryCharges = grandOfBill b0
      rw [preSave_items, preSave_deliveryCharges]
      exact grandOf_recalc_stable b0.items b0.deliveryCharges
    · rw [← preSave_grandTotal b0]; exact hnp
    · rw [preSave_paymentStatus]
      rw [preSave_grandTotal, preSave_amountPaid] at hnp
      rw [if_neg (not_le.mpr hnp)]
      by_cases hp : 0 < b0.amountPaid
      · rw [if_pos hp]; right; rfl
      · rw [if_neg hp]; left; rfl
  have hFin := payInvariant_seq (grandOfBill b0) b0.loyaltyPointsUsed hlpu reqs
    (preSaveTotals b0) hInit
  obtain ⟨hg, _, _, hap, hst⟩ := hFin
  refine ⟨?_, hst, ?_⟩
  · rcases hst with h | h <;> simp [h]
  · rw [hg]; exact hap

/-- Witness for C10: paying the full remaining balance of 800 leaves
the bill `partial` even though `amountPaid + loyaltyPointsUsed` then
equals `grandTotal`. -/
theorem loyalty_gap_blocks_paid_witness :
    (applyPaymentsSeq (preSaveTotals loyaltyGapBill)
        [⟨"cash", 800, "", "completed"⟩]).paymentStatus ≠ PaymentStatus.paid
    ∧ (applyPaymentsSeq (preSaveTotals loyaltyGapBill)
        [⟨"cash", 800, "", "completed"⟩]).amountPaid
        + (applyPaymentsSeq (preSaveTotals loyaltyGapBill)
            [⟨"cash", 800, "", "completed"⟩]).loyaltyPointsUsed
      = (applyPaymentsSeq (preSaveTotals loyaltyGapBill)
          [⟨"cash", 800, "", "completed"⟩]).grandTotal := by
  constructor
  · exact (loyalty_gap_blocks_paid loyaltyGapBill [⟨"cash", 800, "", "completed"⟩]
      (by norm_num [loyaltyGapBill])
      (by norm_num [loyaltyGapBill, preSave_grandTotal, grandOfBill, grandOf,
        subtotalOf, discountOf, taxOf, recalcItem, itemGross, itemDiscount, itemTax])
      (by norm_num [loyaltyGapBill, preSave_grandTotal, preSave_amountPaid,
        grandOfBill, grandOf, subtotalOf, discountOf, taxOf, recalcItem,
        itemGross, itemDiscount, itemTax])).1
  · norm_num [applyPaymentsSeq, postPayment, applyPayment, loyaltyGapBill,
      preSaveTotals, grandOf, subtotalOf, discountOf, taxOf, recalcItem,
      itemGross, itemDiscount, itemTax]

theorem buildItems_all_found (products : List Product) (items : List CartItem)
    (h : ∀ item ∈ items, ∃ p, findProduct products item.productId = some p
        ∧ p.isActive = true) :
    ∃ bis, buildItems products items = Except.ok (bis, shortfallsOf products items) := by
  induction items with
  | nil => exact ⟨[], rfl⟩
  | cons item rest ih =>
    obtain ⟨p, hp, hact⟩ := h item (List.mem_cons_self item rest)
    obtain ⟨bis, hrest⟩ := ih fun i hi => h i (List.mem_cons_of_mem _ hi)
    by_cases hstock : p.stockQuantity < (item.quantity : Int)
    · refine ⟨bis, ?_⟩
      simp only [buildItems, hp, hact, Bool.true_eq_false, if_false, hstock,
        if_true, hrest, shortfallsOf, List.filterMap_cons]
    · refine ⟨mkBillItem p item :: bis, ?_⟩
      simp only [buildItems, hp, hact, Bool.true_eq_false, if_false, hstock,
        hrest, shortfallsOf, List.filterMap_cons]

/-- **C4** (corrected).  If every requested product exists and is
active, and at least one item is short on stock, `POST /api/bills`
fails with `InsufficientStock` carrying the complete ordered list of
shortfalls (product name, available, requested); no stock is mutated
and no bill is created.  (Without the exists-and-active premise a
missing or inactive product is reported first instead, see the
counterexample.) -/
theorem insufficientStock_collects_all (products : List Product)
    (customerDoc : Customer) (req : CreateBillRequest)
    (hfound : ∀ item ∈ req.items, ∃ p, findProduct products item.productId = some p
        ∧ p.isActive = true)
    (hshort : shortfallsOf products req.items ≠ []) :
    createBill products customerDoc req
      = Except.error (BillError.insufficientStock (shortfallsOf products req.items)) := by
  obtain ⟨bis, hb⟩ := buildItems_all_found products req.items hfound
  rw [createBill, hb]
  simp [List.isEmpty_iff, hshort]

/-- Counterexample to C4 as stated: a cart with an insufficient-stock
item (stock 3, requested 5) and a missing product fails with
`ProductNotFound`, not `InsufficientStock`. -/
theorem insufficientStock_preempted_cex :
    shortfallsOf [scenarioBProduct] mixedCartReq.items
        = [⟨"Low stock", 3, 5⟩]
      ∧ createBill [scenarioBProduct] scenarioBCustomer mixedCartReq
        = Except.error (BillError.productNotFound 99)
      ∧ failsWithInsufficientStock
          (createBill [scenarioBProduct] scenarioBCustomer mixedCartReq) = false := by
  refine ⟨by simp [shortfallsOf, mixedCartReq, findProduct, scenarioBProduct], ?_, ?_⟩
  · simp [createBill, buildItems, mixedCartReq, findProduct, scenarioBProduct]
  · simp [failsWithInsufficientStock, createBill, buildItems, mixedCartReq,
      findProduct, scenarioBProduct]

/-- Witness for C4 at Scenario B: requesting 5 of a product with stock
3 fails with `InsufficientStock {available := 3, requested := 5}`. -/
theorem insufficientStock_collects_all_witness :
    createBill [scenarioBProduct] scenarioBCustomer scenarioBReq
      = Except.error (BillError.insufficientStock [⟨"Low stock", 3, 5⟩]) := by
  have h := insufficientStock_collects_all [scenarioBProduct] scenarioBCustomer
    scenarioBReq
    (by
      intro item hitem
      simp only [scenarioBReq, List.mem_singleton] at hitem
      exact ⟨scenarioBProduct, by simp [hitem, findProduct, scenarioBProduct],
        by simp [scenarioBProduct]⟩)
    (by simp [shortfallsOf, scenarioBReq, findProduct, scenarioBProduct])
  rw [h]
  simp [shortfallsOf, scenarioBReq, findProduct, scenarioBProduct]

/-! ## Inversion of a successful finalize -/

@[simp] theorem finalizeBillData_bill (P : List Product) (c : Customer)
    (req : CreateBillRequest) (bis : List BillItem) :
    (finalizeBillData P c req bis).bill = preSaveTotals (billDataOf c req bis) := rfl

@[simp] theorem finalizeBillData_products (P : List Product) (c : Customer)
    (req : CreateBillRequest) (bis : List BillItem) :
    (finalizeBillData P c req bis).products = applyStockDecrements P bis := rfl

@[simp] theorem finalizeBillData_earned (P : List Product) (c : Customer)
    (req : CreateBillRequest) (bis : List BillItem) :
    (finalizeBillData P c req bis).loyaltyPointsEarned
      = calculateLoyaltyPoints c (preSaveTotals (billDataOf c req bis)).grandTotal := rfl

@[simp] theorem finalizeBillData_customer (P : List Product) (c : Customer)
    (req : CreateBillRequest) (bis : List BillItem) :
    (finalizeBillData P c req bis).customer
      = customerPreSave
          (if 0 < req.loyaltyPointsUsed then
            { (updatePurchaseStats c (preSaveTotals (billDataOf c req bis)).grandTotal).1 with
              loyaltyPoints :=
                (updatePurchaseStats c (preSaveTotals (billDataOf c req bis)).grandTotal).1.loyaltyPoints
                  - req.loyaltyPointsUsed }
          else (updatePurchaseStats c (preSaveTotals (billDataOf c req bis)).grandTotal).1) := by
  rw [finalizeBillData]

@[simp] theorem customerPreSave_id (c : Customer) :
    (customerPreSave c).id = c.id := by
  rw [customerPreSave]; split_ifs <;> rfl

@[simp] theorem customerPreSave_loyaltyPoints (c : Customer) :
    (customerPreSave c).loyaltyPoints = c.loyaltyPoints := by
  rw [customerPreSave]; split_ifs <;> rfl

@[simp] theorem customerPreSave_totalSpent (c : Customer) :
    (customerPreSave c).totalSpent = c.totalSpent := by
  rw [customerPreSave]; split_ifs <;> rfl

@[simp] theorem customerPreSave_totalPurchases (c : Customer) :
    (customerPreSave c).totalPurchases = c.totalPurchases := by
  rw [customerPreSave]; split_ifs <;> rfl

@[simp] theorem customerPreSave_averageOrderValue (c : Customer) :
    (customerPreSave c).averageOrderValue = c.averageOrderValue := by
  rw [customerPreSave]; split_ifs <;> rfl

/-- A successful `POST /api/bills` means the cart validated with no
shortfalls and the result is the success branch. -/
theorem createBill_ok_inversion (P : List Product) (c : Customer)
    (req : CreateBillRequest) (r : CreateBillResult)
    (h : createBill P c req = Except.ok r) :
    ∃ billItems, buildItems P req.items = Except.ok (billItems, [])
      ∧ r = finalizeBillData P c req billItems := by
  rw [createBill] at h
  cases hb : buildItems P req.items with
  | error e =>
    rw [hb] at h
    exact Except.noConfusion h
  | ok pr =>
    obtain ⟨bis, sfs⟩ := pr
    rw [hb] at h
    have hempty : sfs = [] := by
      cases sfs with
      | nil => rfl
      | cons a t => simp at h
    subst hempty
    simp only [List.isEmpty_nil, Bool.true_eq_false, if_false, Except.ok.injEq] at h
    exact ⟨bis, rfl, h.symm⟩

/-! ## C5 — loyalty accrual -/

/-- **C5** (corrected).  A successful finalize credits
`floor(floor(grandTotal/100) * tierMultiplier)` points — the code
applies an outer `Math.floor` to the product, so for a `loyal`
customer with an odd number of base points the spec's
`floor(grandTotal/100) * tierMultiplier` overstates the credit.  The
multiplier is 2 for `vip`, 1.5 for `loyal`, 1 otherwise, and the
customer balance receives the credit minus the points redeemed. -/
theorem loyalty_accrual_formula (P : List Product) (c : Customer)
    (req : CreateBillRequest) (r : CreateBillResult)
    (h : createBill P c req = Except.ok r) :
    r.loyaltyPointsEarned
        = ⌊(⌊r.bill.grandTotal / 100⌋ : ℚ) * tierMultiplier c.customerType⌋
      ∧ r.customer.loyaltyPoints
        = c.loyaltyPoints + (r.loyaltyPointsEarned : ℚ)
            - (if 0 < req.loyaltyPointsUsed then req.loyaltyPointsUsed else 0)
      ∧ tierMultiplier CustomerType.vip = 2
      ∧ tierMultiplier CustomerType.loyal = 3/2
      ∧ tierMultiplier CustomerType.new = 1
      ∧ tierMultiplier CustomerType.regular = 1 := by
  obtain ⟨bis, hb, hr⟩ := createBill_ok_inversion P c req r h
  subst hr
  refine ⟨rfl, ?_, rfl, rfl, rfl, rfl⟩
  rw [finalizeBillData_customer, customerPreSave_loyaltyPoints]
  by_cases hlpu : 0 < req.loyaltyPointsUsed
  · rw [if_pos hlpu, if_pos hlpu]
    simp [updatePurchaseStats, calculateLoyaltyPoints]
  · rw [if_neg hlpu, if_neg hlpu]
    simp [updatePurchaseStats, calculateLoyaltyPoints]

theorem scenarioD_eval :
    createBill [scenarioDProduct] scenarioDCustomer scenarioDReq
      = Except.ok scenarioDResult := by
  norm_num [createBill, buildItems, findProduct, mkBillItem, finalizeBillData,
    billDataOf, requestAmountPaid, preSaveTotals, grandOf, subtotalOf,
    discountOf, taxOf, recalcItem, itemGross, itemDiscount, itemTax,
    updatePurchaseStats, calculateLoyaltyPoints, tierMultiplier,
    customerPreSave, applyStockDecrements, stockDecStep,
    scenarioDProduct, scenarioDCustomer, scenarioDReq, scenarioDResult,
    List.find?, Int.floor_intCast]

/-- Witness for C5 at Scenario D: a ₹2000 `vip` bill earns exactly
`floor(floor(2000/100) * 2) = 40` points. -/
theorem loyalty_accrual_formula_witness :
    scenarioDResult.loyaltyPointsEarned
        = ⌊(⌊scenarioDResult.bill.grandTotal / 100⌋ : ℚ)
            * tierMultiplier scenarioDCustomer.customerType⌋
      ∧ scenarioDResult.loyaltyPointsEarned = 40 := by
  refine ⟨(loyalty_accrual_formula [scenarioDProduct] scenarioDCustomer
      scenarioDReq scenarioDResult scenarioD_eval).1, ?_⟩
  norm_num [scenarioDResult]

/-- Counterexample to C5 as stated: a ₹300 bill for a `loyal` customer
credits 4 points, while `floor(300/100) * 1.5 = 4.5`. -/
theorem loyalty_accrual_outer_floor_cex :
    createBill [oddBaseProduct] oddBaseCustomer oddBaseReq = Except.ok oddBaseResult
      ∧ oddBaseResult.loyaltyPointsEarned = 4
      ∧ oddBaseResult.bill.grandTotal = 300
      ∧ (⌊(300 : ℚ) / 100⌋ : ℚ) * tierMultiplier CustomerType.loyal = 9/2
      ∧ ((oddBaseResult.loyaltyPointsEarned : ℚ)
          ≠ (⌊(300 : ℚ) / 100⌋ : ℚ) * tierMultiplier CustomerType.loyal) := by
  refine ⟨?_, by norm_num [oddBaseResult], by norm_num [oddBaseResult], ?_, ?_⟩
  · norm_num [createBill, buildItems, findProduct, mkBillItem, finalizeBillData,
      billDataOf, requestAmountPaid, preSaveTotals, grandOf, subtotalOf,
      discountOf, taxOf, recalcItem, itemGross, itemDiscount, itemTax,
      updatePurchaseStats, calculateLoyaltyPoints, tierMultiplier,
      customerPreSave, applyStockDecrements, stockDecStep,
      oddBaseProduct, oddBaseCustomer, oddBaseReq, oddBaseResult,
      List.find?, Int.floor_intCast]
  · norm_num [tierMultiplier]
  · norm_num [tierMultiplier, oddBaseResult]

/-! ## C9 — status of a freshly finalized bill -/

/-- **C9** (corrected).  Every successfully finalized bill is persisted
with lifecycle status `draft` — the schema default; the create route
never sets `status`, so the draft-to-completed transition does not
happen at finalize time ( `completed` is only reachable through the
separate bill-update endpoint). -/
theorem finalize_persists_draft (P : List Product) (c : Customer)
    (req : CreateBillRequest) (r : CreateBillResult)
    (h : createBill P c req = Except.ok r) :
    r.bill.status = BillStatus.draft := by
  obtain ⟨bis, hb, hr⟩ := createBill_ok_inversion P c req r h
  subst hr
  rw [finalizeBillData_bill, preSave_status]
  rfl

/-- Counterexample to C9 as stated: the persisted Scenario D bill has
status `draft`, not `completed`. -/
theorem finalize_status_cex :
    createBill [scenarioDProduct] scenarioDCustomer scenarioDReq
        = Except.ok scenarioDResult
      ∧ scenarioDResult.bill.status = BillStatus.draft
      ∧ BillStatus.draft ≠ BillStatus.completed := by
  exact ⟨scenarioD_eval, rfl, by decide⟩

/-- Witness for C9's amended statement at Scenario D. -/
theorem finalize_persists_draft_witness :
    scenarioDResult.bill.status = BillStatus.draft :=
  finalize_persists_draft [scenarioDProduct] scenarioDCustomer scenarioDReq
    scenarioDResult scenarioD_eval

/-! ## C6 — the 50 % loyalty cap -/

/-- **C6** (corrected).  `applyLoyaltyPoints` silently clamps: it
stores and returns `min(points, 0.5 * grandTotal)` with no error path,
so the cap holds after that method (for a non-negative total); but the
create-bill route stores the requested `loyaltyPointsUsed` without any
cap check, so `loyaltyPointsUsed ≤ 0.5 * grandTotal` is not an
invariant of every bill, and an over-cap attempt is clamped (by the
method) or accepted verbatim (by the route), never rejected. -/
theorem loyalty_cap_clamped :
    (∀ (b : Bill) (points : ℚ),
        (applyLoyaltyPoints b points).1.loyaltyPointsUsed
            = min points (b.grandTotal * (1/2))
          ∧ (applyLoyaltyPoints b points).2 = min points (b.grandTotal * (1/2))
          ∧ (0 ≤ b.grandTotal →
              (applyLoyaltyPoints b points).1.loyaltyPointsUsed
                ≤ (1/2) * b.grandTotal))
    ∧ (∀ (P : List Product) (c : Customer) (req : CreateBillRequest)
          (r : CreateBillResult),
        createBill P c req = Except.ok r →
        r.bill.loyaltyPointsUsed = req.loyaltyPointsUsed) := by
  constructor
  · intro b points
    have hmin : min points (min points (b.grandTotal * (1/2)))
        = min points (b.grandTotal * (1/2)) := by
      rw [← min_assoc, min_self]
    have h1 : (applyLoyaltyPoints b points).1.loyaltyPointsUsed
        = min points (b.grandTotal * (1/2)) := by
      rw [applyLoyaltyPoints]
      simp only [preSave_loyaltyPointsUsed]
      exact hmin
    refine ⟨h1, ?_, fun hg => ?_⟩
    · rw [applyLoyaltyPoints]
      simp only [preSave_loyaltyPointsUsed]
      exact hmin
    · rw [h1, mul_comm]
      exact min_le_right _ _
  · intro P c req r h
    obtain ⟨bis, hb, hr⟩ := createBill_ok_inversion P c req r h
    subst hr
    rw [finalizeBillData_bill, preSave_loyaltyPointsUsed]
    rfl

/-- Counterexample to C6 as stated: the route accepts 100 points on a
₹100 bill, and the persisted bill violates
`loyaltyPointsUsed ≤ 0.5 * grandTotal`. -/
theorem loyalty_cap_violated_cex :
    createBill [uncappedProduct] uncappedCustomer uncappedReq
        = Except.ok uncappedResult
      ∧ uncappedResult.bill.loyaltyPointsUsed = 100
      ∧ uncappedResult.bill.grandTotal = 100
      ∧ ¬ (uncappedResult.bill.loyaltyPointsUsed
            ≤ (1/2) * uncappedResult.bill.grandTotal) := by
  refine ⟨?_, by norm_num [uncappedResult], by norm_num [uncappedResult],
    by norm_num [uncappedResult]⟩
  norm_num [createBill, buildItems, findProduct, mkBillItem, finalizeBillData,
    billDataOf, requestAmountPaid, preSaveTotals, grandOf, subtotalOf,
    discountOf, taxOf, recalcItem, itemGross, itemDiscount, itemTax,
    updatePurchaseStats, calculateLoyaltyPoints, tierMultiplier,
    customerPreSave, applyStockDecrements, stockDecStep,
    uncappedProduct, uncappedCustomer, uncappedReq, uncappedResult,
    List.find?, Int.floor_intCast]

/-- Witness for C6: redeeming 800 points against the ₹1000 Scenario C
bill is clamped to 500 = half the grand total. -/
theorem loyalty_cap_clamped_witness :
    (applyLoyaltyPoints scenarioCBill 800).2 = 500
      ∧ (applyLoyaltyPoints scenarioCBill 800).1.loyaltyPointsUsed
        ≤ (1/2) * scenarioCBill.grandTotal := by
  have h := loyalty_cap_clamped.1 scenarioCBill 800
  have hg : scenarioCBill.grandTotal = 1000 := by
    norm_num [scenarioCBill, preSave_grandTotal, grandOfBill, grandOf,
      subtotalOf, discountOf, taxOf, recalcItem, itemGross, itemDiscount,
      itemTax]
  constructor
  · rw [h.2.1, hg]; norm_num
  · exact h.2.2 (by rw [hg]; norm_num)

/-! ## C7 — finalize/cancel round trip -/

/-- **C7** (corrected).  Finalize followed by cancel restores every
product exactly (stock and sales counters included); but the customer
statistics are NOT reversed: the cancel route reverses them only for a
`completed` bill, and a bill coming straight from finalize has status
`draft`, so the customer keeps the post-finalize spend, points and
purchase count. -/
theorem finalize_cancel_roundTrip (P : List Product) (c : Customer)
    (req : CreateBillRequest) (r : CreateBillResult) (reason : String)
    (h : createBill P c req = Except.ok r) :
    ∃ r2, cancelBill r.bill r.products r.customer reason = Except.ok r2
      ∧ r2.products = P
      ∧ r2.customer = r.customer := by
  obtain ⟨bis, hb, hr⟩ := createBill_ok_inversion P c req r h
  subst hr
  have hst : (finalizeBillData P c req bis).bill.status = BillStatus.draft := by
    rw [finalizeBillData_bill, preSave_status]; rfl
  have h1 : ¬ ((finalizeBillData P c req bis).bill.status = BillStatus.cancelled) := by
    rw [hst]; decide
  have h2 : ¬ ((finalizeBillData P c req bis).bill.status = BillStatus.completed
      ∧ (finalizeBillData P c req bis).bill.paymentStatus = PaymentStatus.paid) := by
    intro hcontra
    rw [hst] at hcontra
    exact absurd hcontra.1 (by decide)
  rw [cancelBill, if_neg h1, if_neg h2]
  refine ⟨_, rfl, ?_, ?_⟩
  · show applyStockRestores (finalizeBillData P c req bis).products
      (finalizeBillData P c req bis).bill.items = P
    rw [finalizeBillData_products, finalizeBillData_bill, preSave_items]
    exact stock_roundTrip P bis
  · show (if (finalizeBillData P c req bis).bill.status = BillStatus.completed
        then customerPreSave
          (reverseCustomerStats (finalizeBillData P c req bis).customer
            (finalizeBillData P c req bis).bill)
        else (finalizeBillData P c req bis).customer)
      = (finalizeBillData P c req bis).customer
    rw [if_neg (by rw [hst]; decide)]

theorem rtEval : createBill [rtProduct] rtCustomer rtReq = Except.ok rtResult := by
  norm_num [createBill, buildItems, findProduct, mkBillItem, finalizeBillData,
    billDataOf, requestAmountPaid, preSaveTotals, grandOf, subtotalOf,
    discountOf, taxOf, recalcItem, itemGross, itemDiscount, itemTax,
    updatePurchaseStats, calculateLoyaltyPoints, tierMultiplier,
    customerPreSave, applyStockDecrements, stockDecStep,
    rtProduct, rtCustomer, rtReq, rtResult, List.find?, Int.floor_intCast]

/-- Counterexample to C7 as stated: after finalize-then-cancel the
customer's cumulative spend is still 270, not the pre-finalize 0 (and
similarly points and purchase count stay at their post-finalize
values), because the cancelled bill was `draft`, not `completed`. -/
theorem roundTrip_customer_not_restored_cex :
    createBill [rtProduct] rtCustomer rtReq = Except.ok rtResult
      ∧ (cancelBill rtResult.bill rtResult.products rtResult.customer
          "changed mind").toOption.map (fun r2 => r2.customer.totalSpent)
        = some 270
      ∧ rtCustomer.totalSpent = 0
      ∧ ((270 : ℚ) ≠ 0) := by
  refine ⟨rtEval, ?_, by norm_num [rtCustomer], by norm_num⟩
  simp [cancelBill, rtResult]
  exact ⟨_, rfl, rfl⟩

/-- Witness for C7: the concrete round trip restores the product list
exactly and leaves the customer at the post-finalize state. -/
theorem finalize_cancel_roundTrip_witness :
    (cancelBill rtResult.bill rtResult.products rtResult.customer
        "changed mind").toOption.map (fun r2 => r2.products) = some [rtProduct]
      ∧ (cancelBill rtResult.bill rtResult.products rtResult.customer
          "changed mind").toOption.map (fun r2 => r2.customer)
        = some rtResult.customer := by
  obtain ⟨r2, hr2, hp, hc⟩ := finalize_cancel_roundTrip [rtProduct] rtCustomer
    rtReq rtResult "changed mind" rtEval
  rw [hr2]
  exact ⟨by simp [Except.toOption, hp], by simp [Except.toOption, hc]⟩

/-! ## C8 — cancel contract -/

/-- **C8** (corrected).  Cancelling a `completed` and `paid` bill fails
with `CannotCancelPaidBill` and changes nothing; otherwise (bill not
already cancelled) cancellation succeeds: each product's stock gains
the billed quantity and its sales counter loses it, the reason is
appended to the notes, the status becomes `cancelled` — but the
customer statistics are reversed only when the bill's status is
`completed`; cancelling a `draft` bill leaves the customer untouched. -/
theorem cancel_contract (bill : Bill) (P : List Product) (c : Customer)
    (reason : String) :
    (bill.status = BillStatus.completed → bill.paymentStatus = PaymentStatus.paid →
        cancelBill bill P c reason = Except.error BillError.cannotCancelPaidBill)
    ∧ (bill.status ≠ BillStatus.cancelled →
        ¬ (bill.status = BillStatus.completed
            ∧ bill.paymentStatus = PaymentStatus.paid) →
        ∃ r, cancelBill bill P c reason = Except.ok r
          ∧ r.products = P.map (fun p =>
              { p with
                stockQuantity := p.stockQuantity + qtyFor bill.items p.id
                salesCount := p.salesCount - qtyFor bill.items p.id })
          ∧ r.bill.status = BillStatus.cancelled
          ∧ r.bill.notes = (bill.notes ++ "\nCancelled: " ++ reason).trim
          ∧ r.customer = (if bill.status = BillStatus.completed
              then customerPreSave (reverseCustomerStats c bill) else c)
          ∧ (bill.status = BillStatus.completed →
              r.customer.totalPurchases = max 0 (c.totalPurchases - 1)
              ∧ r.customer.totalSpent = max 0 (c.totalSpent - bill.grandTotal)
              ∧ r.customer.loyaltyPoints
                  = max 0 (c.loyaltyPoints + bill.loyaltyPointsUsed
                      - bill.loyaltyPointsEarned))) := by
  constructor
  · intro hcomp hpaid
    have h1 : ¬ (bill.status = BillStatus.cancelled) := by
      rw [hcomp]; decide
    rw [cancelBill, if_neg h1, if_pos ⟨hcomp, hpaid⟩]
  · intro h1 h2
    rw [cancelBill, if_neg h1, if_neg h2]
    refine ⟨_, rfl, ?_, ?_, ?_, rfl, fun hcomp => ?_⟩
    · show applyStockRestores P bill.items = _
      exact applyStockRestores_eq P bill.items
    · show (preSaveTotals { bill with
          status := BillStatus.cancelled
          notes := (bill.notes ++ "\nCancelled: " ++ reason).trim }).status = _
      rw [preSave_status]
    · show (preSaveTotals { bill with
          status := BillStatus.cancelled
          notes := (bill.notes ++ "\nCancelled: " ++ reason).trim }).notes = _
      rw [preSave_notes]
    · show (if bill.status = BillStatus.completed
            then customerPreSave (reverseCustomerStats c bill) else c).totalPurchases
              = max 0 (c.totalPurchases - 1)
          ∧ _ ∧ _
      rw [if_pos hcomp]
      refine ⟨?_, ?_, ?_⟩
      · rw [customerPreSave_totalPurchases]; rfl
      · rw [customerPreSave_totalSpent]; rfl
      · rw [customerPreSave_loyaltyPoints]; rfl

/-- Counterexample to C8 as stated: cancelling a draft bill (which is
neither cancelled nor completed-and-paid) succeeds but does NOT
reverse the customer statistics — the spend stays 500 instead of
dropping to 400. -/
theorem cancel_draft_no_customer_reversal_cex :
    c8DraftBill.status = BillStatus.draft
      ∧ c8DraftBill.status ≠ BillStatus.cancelled
      ∧ ¬ (c8DraftBill.status = BillStatus.completed
          ∧ c8DraftBill.paymentStatus = PaymentStatus.paid)
      ∧ (cancelBill c8DraftBill [] c8Customer "damaged goods").toOption.map
          (fun r => r.customer.totalSpent) = some 500
      ∧ max 0 (c8Customer.totalSpent - c8DraftBill.grandTotal) = 400
      ∧ ((500 : ℚ) ≠ 400) := by
  have hst : c8DraftBill.status = BillStatus.draft := by
    rw [c8DraftBill, preSave_status]
  refine ⟨hst, by rw [hst]; decide, ?_, ?_, ?_, by norm_num⟩
  · intro hcontra
    rw [hst] at hcontra
    exact absurd hcontra.1 (by decide)
  · simp [cancelBill, hst, c8Customer]
    exact ⟨_, rfl, rfl⟩
  · have hg : c8DraftBill.grandTotal = 100 := by
      norm_num [c8DraftBill, preSave_grandTotal, grandOfBill, grandOf,
        subtotalOf, discountOf, taxOf, recalcItem, itemGross, itemDiscount,
        itemTax]
    rw [hg]
    norm_num [c8Customer]

/-- Witness for C8 at Scenario E: the completed-and-paid bill cannot be
cancelled; the completed-but-pending bill cancels with status
`cancelled` and the customer spend reversed to 400. -/
theorem cancel_contract_witness :
    cancelBill scenarioEPaidBill [] c8Customer "refund please"
        = Except.error BillError.cannotCancelPaidBill
      ∧ (cancelBill scenarioEPendingBill [] c8Customer "out of stock").toOption.map
          (fun r => r.bill.status) = some BillStatus.cancelled
      ∧ (cancelBill scenarioEPendingBill [] c8Customer "out of stock").toOption.map
          (fun r => r.customer.totalSpent) = some 400 := by
  refine ⟨(cancel_contract scenarioEPaidBill [] c8Customer "refund please").1 rfl rfl,
    ?_⟩
  obtain ⟨r, hr, hprod, hstatus, hnotes, hcust, hrev⟩ :=
    (cancel_contract scenarioEPendingBill [] c8Customer "out of stock").2
      (by rw [show scenarioEPendingBill.status = BillStatus.completed from rfl]; decide)
      (by
        intro hcontra
        exact absurd hcontra.2 (by decide))
  rw [hr]
  constructor
  · simp [Except.toOption, hstatus]
  · have hspent := (hrev rfl).2.1
    have hmax : max 0 (c8Customer.totalSpent - scenarioEPendingBill.grandTotal) = 400 := by
      norm_num [c8Customer, scenarioEPendingBill, scenarioEPaidBill]
    rw [hmax] at hspent
    simp [Except.toOption, hspent]

end CRMB
